import Mathlib

/-!
# Verification of the ffau audio decoding/resampling pipeline

Shallow embedding of the `ffau` Go package: the `AudioStream` decoder stage,
the `Resampler` stage and the `PackedS16Stream` typed reader, together with
the `AudioFormat` value type.  The embedding follows `audio.go` (the file
holding the current code; `resamp.go` and the unnamed drafts are earlier
versions of the same functions, with the same end-of-stream logic).

External collaborators (libavformat / libavcodec / libswresample calls) are
modelled as per-call oracle inputs: each call to `av_read_frame`,
`avcodec_decode_audio4`, `swr_convert` and `malloc` receives its result from
an input record, so theorems quantify over every possible behaviour of the
external libraries.  C integers are modelled as `Int` (the values involved
stay far from any overflow boundary, and the Go code performs no wrapping
arithmetic on them).
-/

namespace Ffau

/-- Error values crossing the package boundary.  `eof` models Go `io.EOF`;
`msg s` models `errors.New(s)`; `av code` models the `errors.New(C.GoString ...)`
value built by `avError` from a libav error code other than `AVERROR_EOF`. -/
inductive Err where
  | eof : Err
  | msg (s : String) : Err
  | av (code : Int) : Err
deriving DecidableEq

/-- The libav `AVERROR_EOF` error code: the FFERRTAG of E, O, F, space, negated. -/
def AVERROR_EOF : Int := -541478725

/-- Embeds `avError` from audio.go: maps `AVERROR_EOF` to `io.EOF` and any other code
to a fresh error value carrying the description of the code. -/
def avError (errnum : Int) : Err :=
  if errnum = AVERROR_EOF then Err.eof else Err.av errnum

/-- Go `type SampleFmt int8`; the constants below carry the libav
`AV_SAMPLE_FMT_*` enumeration values. -/
abbrev SampleFmt := Int

def NoSamples : SampleFmt := -1
def PackedU8s : SampleFmt := 0
def PackedS16s : SampleFmt := 1
def PackedS32s : SampleFmt := 2
def PackedFloats : SampleFmt := 3
def PackedDoubles : SampleFmt := 4
def PlanarU8s : SampleFmt := 5
def PlanarS16s : SampleFmt := 6
def PlanarS32s : SampleFmt := 7
def PlanarFloats : SampleFmt := 8
def PlanarDoubles : SampleFmt := 9

/-- Embeds `AudioFormat` from audio.go: rate, sample storage format, channel layout.
The layout is the opaque `ChannelLayout` bitmask (`C.int64_t`). -/
structure AudioFormat where
  Rate : Int
  Storage : SampleFmt
  Layout : Int
deriving DecidableEq

/-- Embeds `av_get_channel_layout_nb_channels` (external libavutil): the population
count of the layout bitmask, after the Go conversion of the `int64` layout to
`uint64` (twos-complement). -/
def av_get_channel_layout_nb_channels (layout : Int) : Int :=
  Int.ofNat ((Nat.digits 2 ((layout % (2 ^ 64)).toNat)).sum)

/-- Embeds `AudioFormat.Equal` from audio.go: field-wise comparison. -/
def AudioFormat.Equal (a b : AudioFormat) : Bool :=
  a.Rate == b.Rate && a.Storage == b.Storage && a.Layout == b.Layout

/-- Embeds `AudioFormat.NumChannels` from audio.go: the external layout lookup. -/
def AudioFormat.NumChannels (f : AudioFormat) : Int :=
  av_get_channel_layout_nb_channels f.Layout

/-- Embeds `AudioFormat.NumPlanes` from audio.go: 1 for the five packed formats,
`NumChannels` for the five planar formats, 0 otherwise. -/
def AudioFormat.NumPlanes (f : AudioFormat) : Int :=
  if f.Storage = PackedU8s ∨ f.Storage = PackedS16s ∨ f.Storage = PackedS32s ∨
     f.Storage = PackedFloats ∨ f.Storage = PackedDoubles then 1
  else if f.Storage = PlanarU8s ∨ f.Storage = PlanarS16s ∨ f.Storage = PlanarS32s ∨
     f.Storage = PlanarFloats ∨ f.Storage = PlanarDoubles then f.NumChannels
  else 0

/-- The result triple of `read_raw`: plane-pointer table (`none` = nil
`**C.uint8_t`), frame count, error (`none` = nil Go error). -/
structure RawOut where
  data : Option Nat
  nf : Int
  err : Option Err
deriving DecidableEq

/-- Ceiling division `a / b` for integers with `b > 0`, via floor division.  This models
`C.int(math.Ceil(float64(nf) * resamp.sratio))` with `sratio = to.Rate/from.Rate`
evaluated in exact rational arithmetic. -/
def ceilDivInt (a b : Int) : Int := -((-a).fdiv b)

/-- Embeds the `Resampler` state from audio.go, restricted to the fields the code reads
or writes on the `read_raw` path: the target format `fmt`, the wrapped
format of the source (`source.Format()`, from which `sratio` is derived), the
`sourceEOF` flag, `nplanes`, the allocated per-plane capacity `nf`, and the
address of the `data` plane-pointer table (abstracted to a `Nat`). -/
structure Resampler where
  fmt : AudioFormat
  srcFmt : AudioFormat
  sourceEOF : Bool
  nplanes : Int
  nf : Int
  dataPtr : Nat
deriving DecidableEq

/-- Per-call oracle inputs for `Resampler.read_raw`: the result of the
wrapped `read_raw` of the source, the value `swr_convert` would return this call, and
whether `malloc` inside `checkBuf` succeeds. -/
structure RInput where
  src : RawOut
  conv : Int
  allocOk : Bool
deriving DecidableEq

/-- Embeds `Resampler.checkBuf` from audio.go: grows the output buffer when the
requested per-plane frame capacity exceeds the allocated one; on growth the
capacity field `nf` is set to the request, otherwise nothing changes.  The
byte-level `malloc`/pointer-table setup is abstracted to the `allocOk`
oracle; on allocation failure the error is returned with `nf` unchanged. -/
def Resampler.checkBuf (r : Resampler) (nfReq : Int) (allocOk : Bool) : Except Err Resampler :=
  if r.nf < nfReq then
    if allocOk then Except.ok { r with nf := nfReq }
    else Except.error (Err.msg "could not allocate resampler data block")
  else Except.ok r

/-- The tail of `Resampler.read_raw` (audio.go lines 376-380): invoke
`swr_convert` (its return value is the `nfout` oracle); a zero output frame
count is reported as `io.EOF`, anything else is returned as data with a nil
error.  The third component records that the converter was invoked. -/
def Resampler.convertTail (r : Resampler) (nfout : Int) : RawOut × Resampler × Bool :=
  if nfout = 0 then (⟨none, 0, some Err.eof⟩, r, true)
  else (⟨some r.dataPtr, nfout, none⟩, r, true)

/-- Embeds `Resampler.read_raw` from audio.go (lines 358-381).  When the source is
not yet exhausted it is pulled: `io.EOF` sets `sourceEOF` and the call falls
through to drain the converter; any other error is propagated; a zero frame
count with nil error returns `(nil, 0, nil)` immediately; otherwise (and on
the fall-through paths) `checkBuf` sizes the output to
`ceil(nf * to.Rate / from.Rate)` and `swr_convert` is invoked.  The returned
`Bool` records whether `swr_convert` was invoked this call. -/
def Resampler.read_raw (r : Resampler) (inp : RInput) : RawOut × Resampler × Bool :=
  if r.sourceEOF then
    r.convertTail inp.conv
  else
    match inp.src.err with
    | some e =>
      if e = Err.eof then
        let r1 : Resampler := { r with sourceEOF := true }
        match r1.checkBuf (ceilDivInt (inp.src.nf * r1.fmt.Rate) r1.srcFmt.Rate) inp.allocOk with
        | Except.error e2 => (⟨none, 0, some e2⟩, r1, false)
        | Except.ok r2 => r2.convertTail inp.conv
      else (⟨none, 0, some e⟩, r, false)
    | none =>
      if inp.src.nf = 0 then (⟨none, 0, none⟩, r, false)
      else
        match r.checkBuf (ceilDivInt (inp.src.nf * r.fmt.Rate) r.srcFmt.Rate) inp.allocOk with
        | Except.error e2 => (⟨none, 0, some e2⟩, r, false)
        | Except.ok r2 => r2.convertTail inp.conv

/-- A sequence of `Resampler.read_raw` calls, one oracle input per call,
collecting the outputs and threading the state. -/
def Resampler.run (r : Resampler) (ins : List RInput) : List RawOut × Resampler :=
  match ins with
  | [] => ([], r)
  | i :: rest =>
    let s := r.read_raw i
    let t := s.2.1.run rest
    (s.1 :: t.1, t.2)

/-- Result of `Resample` from audio.go: the source returned as is (`same`),
a freshly built `Resampler`, or a construction error. -/
inductive ResampleResult where
  | same : ResampleResult
  | resampler (r : Resampler) : ResampleResult
  | fail (e : Err) : ResampleResult
deriving DecidableEq

/-- Embeds `Resample` from audio.go (lines 288-312): if the source format equals the
target, the source itself is returned with a nil error before anything is
allocated.  Otherwise `swr_alloc_set_opts`, `swr_init` and the channel
pointer-table `malloc` run in order, each modelled by an oracle
(`swrAllocOk`, `swrInitRet`, `mallocOk`; `dataAddr` is the table address).
The returned `Bool` records whether a converter context was allocated
(whether `swr_alloc_set_opts` was invoked). -/
def Resample (srcFmt toFmt : AudioFormat) (swrAllocOk : Bool) (swrInitRet : Int)
    (mallocOk : Bool) (dataAddr : Nat) : ResampleResult × Bool :=
  if srcFmt.Equal toFmt then (ResampleResult.same, false)
  else if swrAllocOk = false then
    (ResampleResult.fail (Err.msg "could not allocate resampling context"), true)
  else if swrInitRet < 0 then (ResampleResult.fail (avError swrInitRet), true)
  else if mallocOk = false then
    (ResampleResult.fail (Err.msg "could not allocate resampler channel pointers"), true)
  else (ResampleResult.resampler ⟨toFmt, srcFmt, false, srcFmt.NumPlanes, 0, dataAddr⟩, true)

/-- Embeds the `AudioStream` state from audio.go, restricted to what `read_raw`,
`read_frame` and `decode` read or write: the remaining in-flight packet
size and data cursor (the pointer modelled as an integer offset), and the
`framesEOF` flag. -/
structure AudioStream where
  pktSize : Int
  pktData : Int
  framesEOF : Bool
deriving DecidableEq

/-- Oracle result of one `av_read_frame` call: its return code and, on
success (`code = 0`), the size and data pointer of the packet it filled. -/
structure RFResp where
  code : Int
  size : Int
  data : Int
deriving DecidableEq

/-- Oracle result of one `avcodec_decode_audio4` call: the consumed byte
count `n` (negative = error code), the got-frame flag, and the frame
contents it produced (`frame.extended_data` pointer and `frame.nb_samples`). -/
structure DecodeResp where
  n : Int
  gotFrame : Bool
  frameData : Nat
  frameSamples : Int
deriving DecidableEq

/-- Per-call oracle inputs for `AudioStream.read_raw`. -/
structure AInput where
  rf : RFResp
  dec : DecodeResp
deriving DecidableEq

/-- Embeds `AudioStream.read_frame` from audio.go: `av_read_frame` fills the packet
on a zero return code, otherwise its code is mapped through `avError`.  (The
packet-pointer reset before `av_free_packet` has no observable effect on the
modelled state.) -/
def AudioStream.read_frame (st : AudioStream) (rf : RFResp) : Except Err AudioStream :=
  if rf.code = 0 then Except.ok { st with pktSize := rf.size, pktData := rf.data }
  else Except.error (avError rf.code)

/-- Embeds `AudioStream.decode` from audio.go (lines 155-167): a negative consumed
count is an error; otherwise the count is clamped to the remaining packet
size and the packet cursor advances by the clamped count. -/
def AudioStream.decode (st : AudioStream) (d : DecodeResp) : Except Err (Bool × AudioStream) :=
  if d.n < 0 then Except.error (avError d.n)
  else
    let n := if d.n > st.pktSize then st.pktSize else d.n
    Except.ok (d.gotFrame, { st with pktSize := st.pktSize - n, pktData := st.pktData + n })

/-- Embeds `AudioStream.read_raw` from audio.go (lines 170-190): pull a packet when
the current one is empty and packets are not exhausted (`io.EOF` from the
packet source sets `framesEOF` and the call continues; other errors return);
then decode; a decode error returns; with no frame produced the result is
`io.EOF` when `framesEOF` is set and `(nil, 0, nil)` otherwise; with a frame
produced its planes and sample count are returned with a nil error. -/
def AudioStream.read_raw (st : AudioStream) (inp : AInput) : RawOut × AudioStream :=
  let pulled : Except Err AudioStream :=
    if st.pktSize = 0 ∧ st.framesEOF = false then
      match st.read_frame inp.rf with
      | Except.ok st1 => Except.ok st1
      | Except.error e =>
        if e = Err.eof then Except.ok { st with framesEOF := true }
        else Except.error e
    else Except.ok st
  match pulled with
  | Except.error e => (⟨none, 0, some e⟩, st)
  | Except.ok st1 =>
    match st1.decode inp.dec with
    | Except.error e => (⟨none, 0, some e⟩, st1)
    | Except.ok g =>
      if g.1 = false then
        if st1.framesEOF then (⟨none, 0, some Err.eof⟩, g.2)
        else (⟨none, 0, none⟩, g.2)
      else (⟨some inp.dec.frameData, inp.dec.frameSamples, none⟩, g.2)

/-- A sequence of `AudioStream.read_raw` calls, one oracle input per call. -/
def AudioStream.run (st : AudioStream) (ins : List AInput) : List RawOut × AudioStream :=
  match ins with
  | [] => ([], st)
  | i :: rest =>
    let s := st.read_raw i
    let t := s.2.run rest
    (s.1 :: t.1, t.2)

/-- Embeds `PackedS16Stream.Read` from read.go (lines 24-35): pull one raw result
from the source; compute the element count as `NumChannels * nf`; an error
returns an empty slice with that error; a nil plane table returns an empty
slice with a nil error; otherwise the single packed plane is reinterpreted,
without copying, as the `ns` signed-16-bit samples starting at the plane
pointer.  `mem` gives the sample value stored at each element address. -/
def PackedS16Stream.Read (fmt : AudioFormat) (mem : Nat → Int) (resp : RawOut) :
    List Int × Option Err :=
  let ns := fmt.NumChannels * resp.nf
  match resp.err with
  | some e => ([], some e)
  | none =>
    match resp.data with
    | none => ([], none)
    | some p => ((List.range ns.toNat).map (fun i => mem (p + i)), none)

/-! ## Helper lemmas -/

theorem checkBuf_ok_of_allocOk (r : Resampler) (q : Int) :
    r.checkBuf q true = Except.ok { r with nf := max r.nf q } := by
  unfold Resampler.checkBuf
  by_cases h : r.nf < q
  · simp [h, max_eq_right (le_of_lt h)]
  · simp [h, max_eq_left (le_of_not_lt h)]

theorem convertTail_invoked (r : Resampler) (c : Int) : (r.convertTail c).2.2 = true := by
  unfold Resampler.convertTail
  by_cases h : c = 0 <;> simp [h]

theorem convertTail_eof_iff (r : Resampler) (c : Int) :
    (r.convertTail c).1.err = some Err.eof ↔ c = 0 := by
  unfold Resampler.convertTail
  by_cases h : c = 0 <;> simp [h]

theorem convertTail_state (r : Resampler) (c : Int) : (r.convertTail c).2.1 = r := by
  unfold Resampler.convertTail
  by_cases h : c = 0 <;> simp [h]

theorem checkBuf_error_ne_eof (r : Resampler) (q : Int) (ok : Bool) (e : Err)
    (h : r.checkBuf q ok = Except.error e) : e ≠ Err.eof := by
  unfold Resampler.checkBuf at h
  by_cases h1 : r.nf < q
  · rw [if_pos h1] at h
    by_cases h2 : ok = true
    · rw [if_pos h2] at h
      exact absurd h (by simp)
    · rw [if_neg h2] at h
      cases h
      simp
  · rw [if_neg h1] at h
    exact absurd h (by simp)

theorem checkBuf_ok_fields (r r2 : Resampler) (q : Int) (ok : Bool)
    (h : r.checkBuf q ok = Except.ok r2) :
    r.nf ≤ r2.nf ∧ r2.sourceEOF = r.sourceEOF := by
  unfold Resampler.checkBuf at h
  by_cases h1 : r.nf < q
  · rw [if_pos h1] at h
    by_cases h2 : ok = true
    · rw [if_pos h2] at h
      cases h
      exact ⟨le_of_lt h1, rfl⟩
    · rw [if_neg h2] at h
      exact absurd h (by simp)
  · rw [if_neg h1] at h
    cases h
    exact ⟨le_refl _, rfl⟩

/-- Every `Resampler.read_raw` call either ends in the converter tail (for
some post-`checkBuf` state) or returns without invoking the converter, and in
the latter case the error returned is never `io.EOF`. -/
theorem read_raw_shape (r : Resampler) (inp : RInput) :
    (∃ r2 : Resampler, r.read_raw inp = r2.convertTail inp.conv) ∨
    ((r.read_raw inp).2.2 = false ∧ (r.read_raw inp).1.err ≠ some Err.eof) := by
  unfold Resampler.read_raw
  by_cases hs : r.sourceEOF = true
  · rw [if_pos hs]
    exact Or.inl ⟨r, rfl⟩
  · rw [if_neg hs]
    rcases herr : inp.src.err with _ | e
    · simp only [herr]
      by_cases hn : inp.src.nf = 0
      · rw [if_pos hn]
        exact Or.inr ⟨rfl, by simp⟩
      · rw [if_neg hn]
        rcases hcb : r.checkBuf (ceilDivInt (inp.src.nf * r.fmt.Rate) r.srcFmt.Rate)
            inp.allocOk with e2 | r2
        · refine Or.inr ⟨rfl, ?_⟩
          have := checkBuf_error_ne_eof r _ _ e2 hcb
          simp [this]
        · exact Or.inl ⟨r2, rfl⟩
    · simp only [herr]
      by_cases he2 : e = Err.eof
      · rw [if_pos he2]
        rcases hcb : Resampler.checkBuf { r with sourceEOF := true }
            (ceilDivInt (inp.src.nf * r.fmt.Rate) r.srcFmt.Rate) inp.allocOk with e2 | r2
        · refine Or.inr ⟨rfl, ?_⟩
          have := checkBuf_error_ne_eof _ _ _ e2 hcb
          simp [this]
        · exact Or.inl ⟨r2, rfl⟩
      · rw [if_neg he2]
        refine Or.inr ⟨rfl, by simp [he2]⟩

/-! ## Claim theorems -/

/-- C2: a `Resampler.read_raw` call that invokes the converter returns
`io.EOF` exactly when the converter output frame count is zero — whatever
the state of the wrapped source. -/
theorem c2_converter_zero_iff_eof (r : Resampler) (inp : RInput)
    (hcall : (r.read_raw inp).2.2 = true) :
    ((r.read_raw inp).1.err = some Err.eof ↔ inp.conv = 0) := by
  rcases read_raw_shape r inp with ⟨r2, heq⟩ | ⟨hfalse, _⟩
  · rw [heq]
    exact convertTail_eof_iff r2 inp.conv
  · rw [hfalse] at hcall
    cases hcall

/-- Witness for C2: a drained Resampler whose converter reports zero output
returns `io.EOF` — and the converter was invoked on that call. -/
theorem c2_converter_zero_iff_eof_witness :
    (Resampler.read_raw ⟨⟨44100, 1, 3⟩, ⟨48000, 1, 3⟩, true, 1, 0, 5⟩
      ⟨⟨none, 0, none⟩, 0, true⟩).1.err = some Err.eof :=
  (c2_converter_zero_iff_eof ⟨⟨44100, 1, 3⟩, ⟨48000, 1, 3⟩, true, 1, 0, 5⟩
    ⟨⟨none, 0, none⟩, 0, true⟩ (by decide)).mpr rfl

theorem read_raw_nf_mono (r : Resampler) (inp : RInput) :
    r.nf ≤ (r.read_raw inp).2.1.nf := by
  unfold Resampler.read_raw
  by_cases hs : r.sourceEOF = true
  · rw [if_pos hs, convertTail_state]
  · rw [if_neg hs]
    rcases herr : inp.src.err with _ | e
    · simp only [herr]
      by_cases hn : inp.src.nf = 0
      · rw [if_pos hn]
      · rw [if_neg hn]
        rcases hcb : r.checkBuf (ceilDivInt (inp.src.nf * r.fmt.Rate) r.srcFmt.Rate)
            inp.allocOk with e2 | r2
        · exact le_refl _
        · rw [convertTail_state]
          exact (checkBuf_ok_fields r r2 _ _ hcb).1
    · simp only [herr]
      by_cases he2 : e = Err.eof
      · rw [if_pos he2]
        rcases hcb : Resampler.checkBuf { r with sourceEOF := true }
            (ceilDivInt (inp.src.nf * r.fmt.Rate) r.srcFmt.Rate) inp.allocOk with e2 | r2
        · exact le_refl _
        · rw [convertTail_state]
          exact (checkBuf_ok_fields _ r2 _ _ hcb).1
      · rw [if_neg he2]

/-- C4: the allocated output capacity `nf` never decreases, neither across a
single `read_raw` call nor across any sequence of calls, and (when the
in-call allocation succeeds and the capacity starts non-negative) after the
call it is at least the capacity that call required —
`ceil(inputFrames * toRate / fromRate)` when input was pulled from the
source, 0 when no input was pulled. -/
theorem c4_monotone_buffer_growth :
    (∀ (r : Resampler) (inp : RInput), r.nf ≤ (r.read_raw inp).2.1.nf)
    ∧ (∀ (r : Resampler) (ins : List RInput), r.nf ≤ (r.run ins).2.nf)
    ∧ (∀ (r : Resampler) (inp : RInput), inp.allocOk = true → 0 ≤ r.nf →
        (if r.sourceEOF = false ∧ (inp.src.err = none ∨ inp.src.err = some Err.eof)
          then ceilDivInt (inp.src.nf * r.fmt.Rate) r.srcFmt.Rate else 0)
        ≤ (r.read_raw inp).2.1.nf) := by
  refine ⟨read_raw_nf_mono, ?_, ?_⟩
  · intro r ins
    induction ins generalizing r with
    | nil => exact le_refl _
    | cons i rest ih =>
      calc r.nf ≤ (r.read_raw i).2.1.nf := read_raw_nf_mono r i
        _ ≤ ((r.read_raw i).2.1.run rest).2.nf := ih _
  · intro r inp ha h0
    by_cases hs : r.sourceEOF = true
    · rw [if_neg (by simp [hs])]
      calc (0 : Int) ≤ r.nf := h0
        _ ≤ (r.read_raw inp).2.1.nf := read_raw_nf_mono r inp
    · have hs2 : r.sourceEOF = false := by
        cases h : r.sourceEOF
        · rfl
        · exact absurd h hs
      unfold Resampler.read_raw
      rw [if_neg hs]
      rcases herr : inp.src.err with _ | e
      · simp only [herr]
        by_cases hn : inp.src.nf = 0
        · rw [if_pos hn, if_pos (by simp [hs2, herr])]
          simp only [hn, zero_mul]
          have : ceilDivInt 0 r.srcFmt.Rate = 0 := by
            unfold ceilDivInt
            simp [Int.zero_fdiv]
          rw [this]
          exact h0
        · rw [if_neg hn, ha, checkBuf_ok_of_allocOk, if_pos (by simp [hs2, herr])]
          rw [convertTail_state]
          exact le_max_right _ _
      · simp only [herr]
        by_cases he2 : e = Err.eof
        · rw [if_pos he2, ha, checkBuf_ok_of_allocOk,
            if_pos (by simp [hs2, herr, he2]), convertTail_state]
          exact le_max_right _ _
        · rw [if_neg he2, if_neg (by simp [herr, he2])]
          exact h0

/-- Witness for C4 at a concrete call: 5 input frames at 48000→44100 Hz
require a capacity of 5, and the capacity grows from 0 to at least 5. -/
theorem c4_monotone_buffer_growth_witness :
    ((0 : Int) ≤ (Resampler.read_raw ⟨⟨44100, 1, 3⟩, ⟨48000, 1, 3⟩, false, 1, 0, 1⟩
        ⟨⟨some 7, 5, none⟩, 4, true⟩).2.1.nf)
    ∧ ((0 : Int) ≤ (Resampler.run ⟨⟨44100, 1, 3⟩, ⟨48000, 1, 3⟩, false, 1, 0, 1⟩
        [⟨⟨some 7, 5, none⟩, 4, true⟩]).2.nf)
    ∧ ((if (false = false ∧ ((some Err.eof : Option Err) = none ∨
          (some Err.eof : Option Err) = some Err.eof))
         then ceilDivInt (5 * 44100) 48000 else 0)
        ≤ (Resampler.read_raw ⟨⟨44100, 1, 3⟩, ⟨48000, 1, 3⟩, false, 1, 0, 1⟩
            ⟨⟨some 7, 5, some Err.eof⟩, 4, true⟩).2.1.nf) :=
  ⟨c4_monotone_buffer_growth.1 ⟨⟨44100, 1, 3⟩, ⟨48000, 1, 3⟩, false, 1, 0, 1⟩
      ⟨⟨some 7, 5, none⟩, 4, true⟩,
   c4_monotone_buffer_growth.2.1 ⟨⟨44100, 1, 3⟩, ⟨48000, 1, 3⟩, false, 1, 0, 1⟩
      [⟨⟨some 7, 5, none⟩, 4, true⟩],
   c4_monotone_buffer_growth.2.2 ⟨⟨44100, 1, 3⟩, ⟨48000, 1, 3⟩, false, 1, 0, 1⟩
      ⟨⟨some 7, 5, some Err.eof⟩, 4, true⟩ rfl (by norm_num)⟩

/-- C7: `NumPlanes` is 1 for the five packed storage formats, `NumChannels`
for the five planar formats, and 0 for any other storage value, including
the `NoSamples` sentinel. -/
theorem c7_num_planes (f : AudioFormat) :
    (f.Storage = PackedU8s ∨ f.Storage = PackedS16s ∨ f.Storage = PackedS32s ∨
       f.Storage = PackedFloats ∨ f.Storage = PackedDoubles → f.NumPlanes = 1)
    ∧ (f.Storage = PlanarU8s ∨ f.Storage = PlanarS16s ∨ f.Storage = PlanarS32s ∨
       f.Storage = PlanarFloats ∨ f.Storage = PlanarDoubles → f.NumPlanes = f.NumChannels)
    ∧ ((¬ (f.Storage = PackedU8s ∨ f.Storage = PackedS16s ∨ f.Storage = PackedS32s ∨
       f.Storage = PackedFloats ∨ f.Storage = PackedDoubles)) →
       (¬ (f.Storage = PlanarU8s ∨ f.Storage = PlanarS16s ∨ f.Storage = PlanarS32s ∨
       f.Storage = PlanarFloats ∨ f.Storage = PlanarDoubles)) → f.NumPlanes = 0)
    ∧ (f.Storage = NoSamples → f.NumPlanes = 0) := by
  refine ⟨fun h => ?_, fun h => ?_, fun h1 h2 => ?_, fun h => ?_⟩
  · unfold AudioFormat.NumPlanes
    rw [if_pos h]
  · unfold AudioFormat.NumPlanes
    rw [if_neg ?_, if_pos h]
    rcases h with h|h|h|h|h <;>
      norm_num [h, PackedU8s, PackedS16s, PackedS32s, PackedFloats, PackedDoubles,
        PlanarU8s, PlanarS16s, PlanarS32s, PlanarFloats, PlanarDoubles]
  · unfold AudioFormat.NumPlanes
    rw [if_neg h1, if_neg h2]
  · unfold AudioFormat.NumPlanes
    norm_num [h, NoSamples, PackedU8s, PackedS16s, PackedS32s, PackedFloats, PackedDoubles,
      PlanarU8s, PlanarS16s, PlanarS32s, PlanarFloats, PlanarDoubles]

/-- Witness for C7 at concrete formats: packed signed-16 stereo has one
plane, planar signed-16 stereo has `NumChannels` planes, and the
`NoSamples` sentinel has zero planes. -/
theorem c7_num_planes_witness :
    AudioFormat.NumPlanes ⟨44100, 1, 3⟩ = 1
    ∧ AudioFormat.NumPlanes ⟨44100, 6, 3⟩ = AudioFormat.NumChannels ⟨44100, 6, 3⟩
    ∧ AudioFormat.NumPlanes ⟨44100, -1, 3⟩ = 0 :=
  ⟨(c7_num_planes ⟨44100, 1, 3⟩).1 (by norm_num [PackedU8s, PackedS16s]),
   (c7_num_planes ⟨44100, 6, 3⟩).2.1 (by norm_num [PlanarU8s, PlanarS16s]),
   (c7_num_planes ⟨44100, -1, 3⟩).2.2.2 (by norm_num [NoSamples])⟩

/-- C5: `Equal` is reflexive, and `Resample` to an equal format returns the
source itself with a nil error, before any converter context is allocated
(the allocation flag is `false`, and the result does not depend on the
allocation/initialization oracles). -/
theorem c5_equal_refl_resample_identity :
    (∀ f : AudioFormat, f.Equal f = true)
    ∧ (∀ (srcFmt toFmt : AudioFormat) (a : Bool) (i : Int) (m : Bool) (d : Nat),
        srcFmt.Equal toFmt = true →
        Resample srcFmt toFmt a i m d = (ResampleResult.same, false)) := by
  constructor
  · intro f
    simp [AudioFormat.Equal]
  · intro srcFmt toFmt a i m d h
    simp [Resample, h]

/-- Witness for C5: resampling packed-S16 stereo 44.1kHz to itself is the
identity, whatever the oracles say. -/
theorem c5_equal_refl_resample_identity_witness :
    Resample ⟨44100, 1, 3⟩ ⟨44100, 1, 3⟩ false (-1) false 0 = (ResampleResult.same, false) :=
  c5_equal_refl_resample_identity.2 ⟨44100, 1, 3⟩ ⟨44100, 1, 3⟩ false (-1) false 0 (by decide)

/-- C6: with a non-negative consumed count and a non-negative remaining
packet size, `decode` succeeds, the consumed count is clamped to the
remaining size, the cursor advances by the clamped count, and the remaining
size stays non-negative. -/
theorem c6_decode_clamp (st : AudioStream) (d : DecodeResp)
    (hn : 0 ≤ d.n) (_hs : 0 ≤ st.pktSize) :
    st.decode d = Except.ok (d.gotFrame,
      ⟨st.pktSize - min d.n st.pktSize, st.pktData + min d.n st.pktSize, st.framesEOF⟩)
    ∧ 0 ≤ st.pktSize - min d.n st.pktSize := by
  constructor
  · unfold AudioStream.decode
    rw [if_neg (by omega)]
    have hmin : (if d.n > st.pktSize then st.pktSize else d.n) = min d.n st.pktSize := by
      rcases le_or_lt d.n st.pktSize with h | h
      · rw [if_neg (by omega), min_eq_left h]
      · rw [if_pos h, min_eq_right (le_of_lt h)]
    simp only [hmin]
  · omega

/-- Witness for C6: decoding 3 bytes consumed out of a 2-byte packet clamps
to 2 and leaves 0 bytes. -/
theorem c6_decode_clamp_witness :
    AudioStream.decode ⟨2, 10, false⟩ ⟨3, false, 0, 0⟩
      = Except.ok (false, ⟨2 - min 3 2, 10 + min 3 2, false⟩)
    ∧ (0 : Int) ≤ 2 - min 3 2 :=
  c6_decode_clamp ⟨2, 10, false⟩ ⟨3, false, 0, 0⟩ (by norm_num) (by norm_num)

/-- C10: any error from the source (including `io.EOF`) makes
`PackedS16Stream.Read` return an empty slice together with that error;
no sample data accompanies an error. -/
theorem c10_read_error_empty (fmt : AudioFormat) (mem : Nat → Int) (resp : RawOut) (e : Err)
    (h : resp.err = some e) :
    PackedS16Stream.Read fmt mem resp = ([], some e) := by
  unfold PackedS16Stream.Read
  rw [h]

/-- Witness for C10 at a concrete end-of-stream response. -/
theorem c10_read_error_empty_witness :
    PackedS16Stream.Read ⟨44100, 1, 3⟩ (fun _ => 0) ⟨some 5, 2, some Err.eof⟩
      = ([], some Err.eof) :=
  c10_read_error_empty ⟨44100, 1, 3⟩ (fun _ => 0) ⟨some 5, 2, some Err.eof⟩ Err.eof rfl

/-- C8: on a successful read with a non-nil plane table, the returned slice
has `NumChannels * nf` elements and is exactly the no-copy reinterpretation
of the plane memory; a nil plane table with no error yields an empty slice
and a nil error. -/
theorem c8_read_length (fmt : AudioFormat) (mem : Nat → Int) (resp : RawOut)
    (he : resp.err = none) :
    (∀ p, resp.data = some p → 0 ≤ resp.nf →
      (PackedS16Stream.Read fmt mem resp).2 = none ∧
      Int.ofNat (PackedS16Stream.Read fmt mem resp).1.length = fmt.NumChannels * resp.nf ∧
      (PackedS16Stream.Read fmt mem resp).1
        = (List.range (fmt.NumChannels * resp.nf).toNat).map (fun i => mem (p + i)))
    ∧ (resp.data = none → PackedS16Stream.Read fmt mem resp = ([], none)) := by
  constructor
  · intro p hp hnf
    have hnn : 0 ≤ fmt.NumChannels * resp.nf := by
      apply mul_nonneg _ hnf
      unfold AudioFormat.NumChannels av_get_channel_layout_nb_channels
      exact Int.ofNat_nonneg _
    unfold PackedS16Stream.Read
    rw [he, hp]
    refine ⟨rfl, ?_, rfl⟩
    simp [Int.toNat_of_nonneg hnn]
  · intro hd
    unfold PackedS16Stream.Read
    rw [he, hd]

/-- Witness for C8: a packed-S16 stereo source returning 4 frames yields an
8-element slice reading the plane memory directly, and a nil plane table
yields an empty slice with no error. -/
theorem c8_read_length_witness :
    ((PackedS16Stream.Read ⟨44100, 1, 3⟩ (fun i => (i : Int)) ⟨some 10, 4, none⟩).2 = none ∧
     Int.ofNat (PackedS16Stream.Read ⟨44100, 1, 3⟩ (fun i => (i : Int)) ⟨some 10, 4, none⟩).1.length
       = AudioFormat.NumChannels ⟨44100, 1, 3⟩ * 4 ∧
     (PackedS16Stream.Read ⟨44100, 1, 3⟩ (fun i => (i : Int)) ⟨some 10, 4, none⟩).1
       = (List.range (AudioFormat.NumChannels ⟨44100, 1, 3⟩ * 4).toNat).map
           (fun i => ((10 + i : Nat) : Int)))
    ∧ PackedS16Stream.Read ⟨44100, 1, 3⟩ (fun i => (i : Int)) ⟨none, 4, none⟩ = ([], none) :=
  ⟨(c8_read_length ⟨44100, 1, 3⟩ (fun i => (i : Int)) ⟨some 10, 4, none⟩ rfl).1
      10 rfl (by norm_num),
   (c8_read_length ⟨44100, 1, 3⟩ (fun i => (i : Int)) ⟨none, 4, none⟩ rfl).2 rfl⟩

/-- C9: when the wrapped source is not exhausted and returns zero frames
with a nil error, the Resampler returns `(nil, 0, nil)` with the state
unchanged and without invoking the converter — the transient zero is not
turned into end-of-stream. -/
theorem c9_transient_zero_not_eof (r : Resampler) (inp : RInput)
    (hs : r.sourceEOF = false) (he : inp.src.err = none) (hn : inp.src.nf = 0) :
    r.read_raw inp = (⟨none, 0, none⟩, r, false) := by
  unfold Resampler.read_raw
  rw [hs]
  simp only [Bool.false_eq_true, if_false]
  rw [he]
  simp [hn]

/-- Witness for C9 at a concrete mid-stream zero-frame source response. -/
theorem c9_transient_zero_not_eof_witness :
    Resampler.read_raw ⟨⟨44100, 1, 3⟩, ⟨48000, 1, 3⟩, false, 1, 0, 1⟩ ⟨⟨none, 0, none⟩, 99, true⟩
      = (⟨none, 0, none⟩, ⟨⟨44100, 1, 3⟩, ⟨48000, 1, 3⟩, false, 1, 0, 1⟩, false) :=
  c9_transient_zero_not_eof ⟨⟨44100, 1, 3⟩, ⟨48000, 1, 3⟩, false, 1, 0, 1⟩
    ⟨⟨none, 0, none⟩, 99, true⟩ rfl rfl rfl

/-- C3: when the packet-pull step does not fail (the packet source returns a
packet or end-of-stream whenever it is consulted) and the decode step
succeeds (non-negative consumed count), `read_raw` returns the planes and
sample count of the frame with a nil error if a frame was produced; `io.EOF`
if no frame was produced and the packet source has reported end-of-stream
(`framesEOF` set); and `(nil, 0, nil)` if no frame was produced and packets
remain. -/
theorem c3_read_raw_decode_cases (st : AudioStream) (inp : AInput)
    (hpull : st.pktSize = 0 ∧ st.framesEOF = false →
      inp.rf.code = 0 ∨ inp.rf.code = AVERROR_EOF)
    (hn : 0 ≤ inp.dec.n) :
    (inp.dec.gotFrame = true →
      (st.read_raw inp).1 = ⟨some inp.dec.frameData, inp.dec.frameSamples, none⟩)
    ∧ (inp.dec.gotFrame = false → (st.read_raw inp).2.framesEOF = true →
      (st.read_raw inp).1 = ⟨none, 0, some Err.eof⟩)
    ∧ (inp.dec.gotFrame = false → (st.read_raw inp).2.framesEOF = false →
      (st.read_raw inp).1 = ⟨none, 0, none⟩) := by
  have hnn : ¬ inp.dec.n < 0 := by omega
  by_cases hc : st.pktSize = 0 ∧ st.framesEOF = false
  · obtain ⟨hc1, hc2⟩ := hc
    rcases hpull ⟨hc1, hc2⟩ with h0 | heof
    · refine ⟨fun hg => ?_, fun hg hf => ?_, fun hg hf => ?_⟩
      · simp [AudioStream.read_raw, AudioStream.read_frame, AudioStream.decode,
          hc1, hc2, h0, hnn, hg]
      · simp [AudioStream.read_raw, AudioStream.read_frame, AudioStream.decode,
          hc1, hc2, h0, hnn, hg] at hf
      · simp [AudioStream.read_raw, AudioStream.read_frame, AudioStream.decode,
          hc1, hc2, h0, hnn, hg]
    · have hne : inp.rf.code ≠ 0 := by
        intro h
        rw [h] at heof
        exact absurd heof.symm (by norm_num [AVERROR_EOF])
      have hav : avError inp.rf.code = Err.eof := by
        unfold avError
        rw [if_pos heof]
      refine ⟨fun hg => ?_, fun hg hf => ?_, fun hg hf => ?_⟩
      · simp [AudioStream.read_raw, AudioStream.read_frame, AudioStream.decode,
          hc1, hc2, hne, hav, hnn, hg]
      · simp [AudioStream.read_raw, AudioStream.read_frame, AudioStream.decode,
          hc1, hc2, hne, hav, hnn, hg]
      · simp [AudioStream.read_raw, AudioStream.read_frame, AudioStream.decode,
          hc1, hc2, hne, hav, hnn, hg] at hf
  · by_cases hfe : st.framesEOF = true
    · refine ⟨fun hg => ?_, fun hg hf => ?_, fun hg hf => ?_⟩
      · simp [AudioStream.read_raw, AudioStream.decode, hc, hnn, hg]
      · simp [AudioStream.read_raw, AudioStream.decode, hc, hnn, hg, hfe]
      · simp [AudioStream.read_raw, AudioStream.decode, hc, hnn, hg, hfe] at hf
    · simp only [Bool.not_eq_true] at hfe
      have hps : st.pktSize ≠ 0 := fun h => hc ⟨h, hfe⟩
      refine ⟨fun hg => ?_, fun hg hf => ?_, fun hg hf => ?_⟩
      · simp [AudioStream.read_raw, AudioStream.decode, hps, hnn, hg]
      · simp [AudioStream.read_raw, AudioStream.decode, hps, hnn, hg, hfe] at hf
      · simp [AudioStream.read_raw, AudioStream.decode, hps, hnn, hg, hfe]

/-- Witness for C3: a fresh stream whose packet source supplies a 4-byte
packet and whose decoder produces a 6-sample frame returns the frame's
planes and count with a nil error. -/
theorem c3_read_raw_decode_cases_witness :
    (AudioStream.read_raw ⟨0, 0, false⟩ ⟨⟨0, 4, 100⟩, ⟨2, true, 55, 6⟩⟩).1
      = ⟨some 55, 6, none⟩ :=
  (c3_read_raw_decode_cases ⟨0, 0, false⟩ ⟨⟨0, 4, 100⟩, ⟨2, true, 55, 6⟩⟩
    (fun _ => Or.inl rfl) (by norm_num)).1 rfl

/-- A drained `AudioStream` (`framesEOF` set, empty packet) returns `io.EOF`
and is left unchanged by any call whose decoder reports no frame with a
non-negative consumed count. -/
theorem read_raw_drained_eq (st : AudioStream) (inp : AInput)
    (hf : st.framesEOF = true) (hp : st.pktSize = 0)
    (hn : 0 ≤ inp.dec.n) (hg : inp.dec.gotFrame = false) :
    st.read_raw inp = (⟨none, 0, some Err.eof⟩, st) := by
  obtain ⟨ps, pd, fe⟩ := st
  simp only [] at hf hp
  subst hf hp
  have hnn : ¬ inp.dec.n < 0 := by omega
  have hX : (if inp.dec.n > (0 : Int) then (0 : Int) else inp.dec.n) = 0 := by
    rcases lt_or_ge 0 inp.dec.n with h | h
    · rw [if_pos h]
    · rw [if_neg (by omega)]
      omega
  simp [AudioStream.read_raw, AudioStream.decode, hnn, hg, hX]

/-- Drained-run stability for the decoder stage: from the drained state,
every call of a sequence in which the decoder keeps reporting no frame with
a non-negative count returns `io.EOF`, and the state never changes. -/
theorem run_drained (st : AudioStream) (ins : List AInput)
    (hf : st.framesEOF = true) (hp : st.pktSize = 0)
    (hall : ∀ i ∈ ins, 0 ≤ i.dec.n ∧ i.dec.gotFrame = false) :
    st.run ins = (List.replicate ins.length ⟨none, 0, some Err.eof⟩, st) := by
  induction ins with
  | nil => simp [AudioStream.run]
  | cons i rest ih =>
    have hi := hall i (List.mem_cons_self i rest)
    have hstep := read_raw_drained_eq st i hf hp hi.1 hi.2
    have hrest := ih (fun j hj => hall j (List.mem_cons_of_mem i hj))
    simp [AudioStream.run, hstep, hrest, List.replicate_succ]

/-- A drained Resampler returns `io.EOF` and is unchanged whenever the
converter reports zero output. -/
theorem read_raw_drain_step (r : Resampler) (inp : RInput)
    (hs : r.sourceEOF = true) (hc : inp.conv = 0) :
    r.read_raw inp = (⟨none, 0, some Err.eof⟩, r, true) := by
  simp [Resampler.read_raw, hs, Resampler.convertTail, hc]

/-- Drain-run stability for the resample stage: once the wrapped source is
exhausted, every call of a sequence in which the converter keeps reporting
zero output returns `io.EOF`, and the state never changes. -/
theorem run_drain (r : Resampler) (ins : List RInput)
    (hs : r.sourceEOF = true) (hall : ∀ i ∈ ins, i.conv = 0) :
    r.run ins = (List.replicate ins.length ⟨none, 0, some Err.eof⟩, r) := by
  induction ins with
  | nil => simp [Resampler.run]
  | cons i rest ih =>
    have hstep := read_raw_drain_step r i hs (hall i (List.mem_cons_self i rest))
    have hrest := ih (fun j hj => hall j (List.mem_cons_of_mem i hj))
    simp [Resampler.run, hstep, hrest, List.replicate_succ]

/-- Reaching `io.EOF` through a successful decode puts the decoder stage in
the drained state (`framesEOF` set, empty packet). -/
theorem read_raw_eof_state (st : AudioStream) (inp : AInput)
    (hps : 0 ≤ st.pktSize) (hwf : st.framesEOF = true → st.pktSize = 0)
    (hn : 0 ≤ inp.dec.n)
    (heof : (st.read_raw inp).1.err = some Err.eof) :
    (st.read_raw inp).2.framesEOF = true ∧ (st.read_raw inp).2.pktSize = 0 := by
  obtain ⟨ps, pd, fe⟩ := st
  have hnn : ¬ inp.dec.n < 0 := by omega
  cases fe with
  | true =>
    have hp0 : ps = 0 := hwf rfl
    subst hp0
    by_cases hg : inp.dec.gotFrame = false
    · rw [read_raw_drained_eq ⟨0, pd, true⟩ inp rfl rfl hn hg]
      exact ⟨rfl, rfl⟩
    · simp only [Bool.not_eq_false] at hg
      have hX : (if inp.dec.n > (0 : Int) then (0 : Int) else inp.dec.n) = 0 := by
        rcases lt_or_ge 0 inp.dec.n with h | h
        · rw [if_pos h]
        · rw [if_neg (by omega)]
          omega
      simp [AudioStream.read_raw, AudioStream.decode, hnn, hg, hX] at heof
  | false =>
    by_cases hz : ps = 0
    · subst hz
      by_cases h0 : inp.rf.code = 0
      · by_cases hg : inp.dec.gotFrame = false
        · simp [AudioStream.read_raw, AudioStream.read_frame, AudioStream.decode,
            h0, hnn, hg] at heof
        · simp only [Bool.not_eq_false] at hg
          simp [AudioStream.read_raw, AudioStream.read_frame, AudioStream.decode,
            h0, hnn, hg] at heof
      · by_cases he : inp.rf.code = AVERROR_EOF
        · have hav : avError inp.rf.code = Err.eof := by
            unfold avError
            rw [if_pos he]
          have hX : (if inp.dec.n > (0 : Int) then (0 : Int) else inp.dec.n) = 0 := by
            rcases lt_or_ge 0 inp.dec.n with h | h
            · rw [if_pos h]
            · rw [if_neg (by omega)]
              omega
          by_cases hg : inp.dec.gotFrame = false
          · constructor <;>
              simp [AudioStream.read_raw, AudioStream.read_frame, AudioStream.decode,
                h0, hav, hnn, hX, hg]
          · simp only [Bool.not_eq_false] at hg
            constructor <;>
              simp [AudioStream.read_raw, AudioStream.read_frame, AudioStream.decode,
                h0, hav, hnn, hX, hg]
        · have hav : avError inp.rf.code ≠ Err.eof := by
            unfold avError
            rw [if_neg he]
            simp
          by_cases hg : inp.dec.gotFrame = false
          · simp [AudioStream.read_raw, AudioStream.read_frame, AudioStream.decode,
              h0, hav, hnn, hg] at heof
          · simp only [Bool.not_eq_false] at hg
            simp [AudioStream.read_raw, AudioStream.read_frame, AudioStream.decode,
              h0, hav, hnn, hg] at heof
    · by_cases hg : inp.dec.gotFrame = false
      · simp [AudioStream.read_raw, AudioStream.decode, hz, hnn, hg] at heof
      · simp only [Bool.not_eq_false] at hg
        simp [AudioStream.read_raw, AudioStream.decode, hz, hnn, hg] at heof

/-- C1 (amended): end-of-stream stability holds conditionally.  (a) A
decoder stage in the drained state returns `io.EOF` on every call of any
sequence in which the decoder keeps reporting no frame with a non-negative
consumed count, and its state never changes; (b) reaching `io.EOF` through a
successful decode puts the stage in that drained state; (c) a resample stage
whose wrapped source is exhausted returns `io.EOF` on every call of any
sequence in which the converter keeps reporting zero output, and its state
never changes.  (The unconditional claim is refuted by
`c1_eof_stability_counterexample`.) -/
theorem c1_eof_stability_amended :
    (∀ (st : AudioStream) (ins : List AInput), st.framesEOF = true → st.pktSize = 0 →
      (∀ i ∈ ins, 0 ≤ i.dec.n ∧ i.dec.gotFrame = false) →
      st.run ins = (List.replicate ins.length ⟨none, 0, some Err.eof⟩, st))
    ∧ (∀ (st : AudioStream) (inp : AInput), 0 ≤ st.pktSize →
        (st.framesEOF = true → st.pktSize = 0) → 0 ≤ inp.dec.n →
        (st.read_raw inp).1.err = some Err.eof →
        (st.read_raw inp).2.framesEOF = true ∧ (st.read_raw inp).2.pktSize = 0)
    ∧ (∀ (r : Resampler) (ins : List RInput), r.sourceEOF = true →
        (∀ i ∈ ins, i.conv = 0) →
        r.run ins = (List.replicate ins.length ⟨none, 0, some Err.eof⟩, r)) :=
  ⟨fun st ins hf hp hall => run_drained st ins hf hp hall,
   fun st inp hps hwf hn heof => read_raw_eof_state st inp hps hwf hn heof,
   fun r ins hs hall => run_drain r ins hs hall⟩

/-- Witness for the amended C1, at concrete drained states and two-call
sequences. -/
theorem c1_eof_stability_amended_witness :
    (AudioStream.run ⟨0, 7, true⟩ [⟨⟨1, 0, 0⟩, ⟨0, false, 0, 0⟩⟩, ⟨⟨1, 0, 0⟩, ⟨3, false, 0, 0⟩⟩]
      = (List.replicate 2 ⟨none, 0, some Err.eof⟩, ⟨0, 7, true⟩))
    ∧ ((AudioStream.read_raw ⟨0, 7, true⟩ ⟨⟨1, 0, 0⟩, ⟨0, false, 0, 0⟩⟩).2.framesEOF = true
        ∧ (AudioStream.read_raw ⟨0, 7, true⟩ ⟨⟨1, 0, 0⟩, ⟨0, false, 0, 0⟩⟩).2.pktSize = 0)
    ∧ (Resampler.run ⟨⟨44100, 1, 3⟩, ⟨48000, 1, 3⟩, true, 1, 5, 1⟩
        [⟨⟨none, 0, none⟩, 0, true⟩, ⟨⟨some 9, 2, none⟩, 0, true⟩]
      = (List.replicate 2 ⟨none, 0, some Err.eof⟩, ⟨⟨44100, 1, 3⟩, ⟨48000, 1, 3⟩, true, 1, 5, 1⟩)) :=
  ⟨c1_eof_stability_amended.1 ⟨0, 7, true⟩ _ rfl rfl (by decide),
   c1_eof_stability_amended.2.1 ⟨0, 7, true⟩ ⟨⟨1, 0, 0⟩, ⟨0, false, 0, 0⟩⟩
     (by norm_num) (fun _ => rfl) (by norm_num) (by decide),
   c1_eof_stability_amended.2.2 ⟨⟨44100, 1, 3⟩, ⟨48000, 1, 3⟩, true, 1, 5, 1⟩ _ rfl (by decide)⟩

/-- C1 as stated is false on the code: a Resampler mid-stream whose
converter transiently outputs zero frames returns `io.EOF` (first call), yet
the very next call returns 3 frames of data with a nil error — the stream
resurrects after reporting end-of-stream. -/
theorem c1_eof_stability_counterexample :
    (Resampler.read_raw ⟨⟨44100, 1, 3⟩, ⟨48000, 1, 3⟩, false, 1, 0, 1⟩
        ⟨⟨some 7, 5, none⟩, 0, true⟩).1.err = some Err.eof
    ∧ (Resampler.read_raw
        (Resampler.read_raw ⟨⟨44100, 1, 3⟩, ⟨48000, 1, 3⟩, false, 1, 0, 1⟩
          ⟨⟨some 7, 5, none⟩, 0, true⟩).2.1
        ⟨⟨some 7, 5, none⟩, 3, true⟩).1
      = ⟨some 1, 3, none⟩ := by
  constructor <;> decide

end Ffau
